import Mathlib

/-!
Verification development for the lynkia-agent message-classification and
action-dispatch pipeline.

The Python sources under `src/` are shallowly embedded:
* `services/intent_parser.py` — the rule cascade and field extractors
  (regular-expression searches are embedded as explicit left-to-right scans
  with the exact greedy/backtracking behaviour of the fixed-shape patterns
  used by the source; `\d`, `\s`, `\w` and `str.upper()` are modelled on
  ASCII, which covers every input considered here);
* `services/intervention_service.py` and `services/image_service.py` — the
  storage operations, with DynamoDB modelled as an in-memory list of items
  (`get_item` = first key match, `put_item` = replace-or-append,
  `update_item` = modify-or-upsert, which is DynamoDB's documented
  behaviour on a missing key) and the ambient clock/credentials passed
  explicitly through an `Env` record;
* `services/agent_service.py` — the executor and the OpenAI fallback, the
  external model being an injected oracle (`AiOutcome`) and `ClientError`
  faults for bulk writes an injected per-item oracle.

Python dictionaries flowing between the parser, the executor and the
services are embedded as association lists of `JVal` values, so that the
exact key names used by each side are preserved.
-/

namespace Lynkia

/-- A single ASCII apostrophe, used to build the French message strings. -/
def apos : String := String.mk [Char.ofNat 39]

/-- Python `\s` on the ASCII range: space, tab, newline, carriage return,
vertical tab, form feed. -/
def isSpaceChar (c : Char) : Bool :=
  c == ' ' || c == '\t' || c == '\n' || c == '\r' ||
  c == Char.ofNat 11 || c == Char.ofNat 12

/-- Python `\w` on the ASCII range: letters, digits and underscore. -/
def pyIsWordChar (c : Char) : Bool := c.isAlphanum || c == '_'

/-- The character class `[A-Z0-9]` of the alphanumeric-reference pattern
(`Char.isUpper`/`Char.isDigit` are exactly the ASCII ranges `A`–`Z` and
`0`–`9`). -/
def isUpperAlnum (c : Char) : Bool := c.isUpper || c.isDigit

/-- The character class `[A-Z\s]` of the `TYPE` clause pattern. -/
def isUpperOrSpace (c : Char) : Bool := c.isUpper || isSpaceChar c

/-- Python `str.strip()` (ASCII whitespace). -/
def trimChars (l : List Char) : List Char :=
  ((l.dropWhile isSpaceChar).reverse.dropWhile isSpaceChar).reverse

/-- `str.strip()` at the `String` level. -/
def trimStr (s : String) : String := String.mk (trimChars s.data)

/-- Python `str.upper()` (ASCII). -/
def upperStr (s : String) : String := String.mk (s.data.map Char.toUpper)

/-- Exact (case-sensitive) list prefix test. -/
def isPrefixList : List Char → List Char → Bool
  | [], _ => true
  | _ :: _, [] => false
  | a :: as, b :: bs => a == b && isPrefixList as bs

/-- Substring containment, the embedding of Python `needle in haystack`. -/
def containsSub (needle : List Char) : List Char → Bool
  | [] => isPrefixList needle []
  | c :: cs => isPrefixList needle (c :: cs) || containsSub needle cs

/-- Case-insensitive (ASCII fold) list prefix test, for `re.IGNORECASE`. -/
def ciPrefix : List Char → List Char → Bool
  | [], _ => true
  | _ :: _, [] => false
  | a :: as, b :: bs => a.toLower == b.toLower && ciPrefix as bs

/-- Lexicographic `≤` on character lists, the order Python uses to compare
`str` values such as `YYYY-MM-DD` date strings. -/
def listLe : List Char → List Char → Bool
  | [], _ => true
  | _ :: _, [] => false
  | a :: as, b :: bs => if a == b then listLe as bs else decide (a < b)

/-- Python `a >= b` on strings. -/
def strGe (a b : String) : Bool := listLe b.data a.data

/-- Python truthiness of an optional string (`None` and `""` are falsy). -/
def pyTruthyOpt : Option String → Bool
  | none => false
  | some s => !s.isEmpty

/-- Python `opt or default` for optional strings (`None`/`""` give the
default). -/
def pyOrStr : Option String → String → String
  | none, d => d
  | some s, d => if s.isEmpty then d else s

/-! ### Embedded JSON-like values

The dictionaries that the parser, the executor and the services exchange. -/

/-- A Python value as it appears in the pipeline's dictionaries. -/
inductive JVal where
  | s (v : String)
  | n (v : Nat)
  | b (v : Bool)
  | null
  | obj (fields : List (String × JVal))
  | arr (elems : List JVal)

/-- A Python dictionary: an association list of `JVal`s (keys unique). -/
abbrev JDict := List (String × JVal)

/-- `dict.get(key)`: the first binding of `key`, if any. -/
def jget : JDict → String → Option JVal
  | [], _ => none
  | (k, v) :: rest, key => if k == key then some v else jget rest key

/-- `dict.get(key, default)` for string values. -/
def getStrD (d : JDict) (key dflt : String) : String :=
  match jget d key with
  | some (JVal.s v) => v
  | _ => dflt

/-- `dict.get(key)` for string values (`None` when absent; the producers in
this code base only ever store strings under the keys read this way). -/
def getStrOpt (d : JDict) (key : String) : Option String :=
  match jget d key with
  | some (JVal.s v) => some v
  | _ => none

/-! ### `models/actions.py` -/

/-- The closed action enum of `models/actions.py`. -/
inductive Action where
  | CREATE_ONE | CREATE_BULK | ADD_COMMENT | ADD_IMAGE | UPDATE | DELETE
  | LIST | SEARCH | GET_IMAGES | HELP | ERROR
deriving DecidableEq

/-- `Action.value`: the string value of each enum member. -/
def Action.val : Action → String
  | .CREATE_ONE => "CREATE_ONE"
  | .CREATE_BULK => "CREATE_BULK"
  | .ADD_COMMENT => "ADD_COMMENT"
  | .ADD_IMAGE => "ADD_IMAGE"
  | .UPDATE => "UPDATE"
  | .DELETE => "DELETE"
  | .LIST => "LIST"
  | .SEARCH => "SEARCH"
  | .GET_IMAGES => "GET_IMAGES"
  | .HELP => "HELP"
  | .ERROR => "ERROR"

/-- The enum constructor `Action(str)`: `none` models the `ValueError`
raised on a string that is not one of the 11 values. -/
def Action.ofString : String → Option Action
  | "CREATE_ONE" => some .CREATE_ONE
  | "CREATE_BULK" => some .CREATE_BULK
  | "ADD_COMMENT" => some .ADD_COMMENT
  | "ADD_IMAGE" => some .ADD_IMAGE
  | "UPDATE" => some .UPDATE
  | "DELETE" => some .DELETE
  | "LIST" => some .LIST
  | "SEARCH" => some .SEARCH
  | "GET_IMAGES" => some .GET_IMAGES
  | "HELP" => some .HELP
  | "ERROR" => some .ERROR
  | _ => none

/-! ### `services/intent_parser.py` — extractors

`re.search`/`re.findall`-first-element are embedded as leftmost scans.
Every pattern in the source is of fixed shape, so the scans below implement
exactly the leftmost-match-with-greedy-backtracking behaviour of the Python
`re` engine on those patterns. -/

/-- The fixed priority list `INTERVENTION_TYPES` (longer labels first). -/
def INTERVENTION_TYPES : List String :=
  ["RAC IMMEUBLE", "RAC", "SAV", "RECO", "PRESTA", "RACCORDEMENT",
   "MAINTENANCE", "INSTALLATION"]

/-- `normalize_text`: `text.strip().upper()`. -/
def normalize_text (text : String) : String := upperStr (trimStr text)

/-- Word-boundary test for the position before a run (the run's first
character is a word character, so `\b` holds iff the previous character is
absent or not a word character). -/
def boundaryOk : Option Char → Bool
  | none => true
  | some p => !pyIsWordChar p

/-- Word-boundary test for the position after a run. -/
def afterOk : List Char → Bool
  | [] => true
  | c :: _ => !pyIsWordChar c

/-- Attempt the pattern `\b(good{6,15})\b` at the current position.  The
run of `good` characters being a run of word characters, the greedy match
with backtracking succeeds iff the whole maximal run has length 6–15 and is
followed by a word boundary, in which case the match is that run. -/
def tryRunAt (good : Char → Bool) (prev : Option Char) (l : List Char) :
    Option (List Char) :=
  let run := l.takeWhile good
  let rest := l.dropWhile good
  if boundaryOk prev && decide (6 ≤ run.length) && decide (run.length ≤ 15)
      && afterOk rest then
    some run
  else none

/-- Leftmost match of `\b(good{6,15})\b`, scanning position by position and
remembering the previous character for the boundary test. -/
def findRun (good : Char → Bool) : Option Char → List Char → Option (List Char)
  | _, [] => none
  | prev, c :: cs =>
    match tryRunAt good prev (c :: cs) with
    | some r => some r
    | none => findRun good (some c) cs

/-- `extract_reference`: first `\b(\d{6,15})\b` on the raw text, then
`\b([A-Z0-9]{6,15})\b` on the upper-cased text. -/
def extract_reference (text : String) : Option String :=
  match findRun Char.isDigit none text.data with
  | some r => some (String.mk r)
  | none =>
    match findRun isUpperAlnum none (text.data.map Char.toUpper) with
    | some r => some (String.mk r)
    | none => none

/-- Attempt `(\d{2})/(\d{2})/(\d{4})` at the current position, returning
the day, month and year digit groups. -/
def matchSlashAt : List Char → Option (List Char × List Char × List Char)
  | d1 :: d2 :: s1 :: m1 :: m2 :: s2 :: y1 :: y2 :: y3 :: y4 :: _ =>
    if d1.isDigit && d2.isDigit && s1 == '/' && m1.isDigit && m2.isDigit &&
        s2 == '/' && y1.isDigit && y2.isDigit && y3.isDigit && y4.isDigit then
      some ([d1, d2], [m1, m2], [y1, y2, y3, y4])
    else none
  | _ => none

/-- Leftmost match of `(\d{2})/(\d{2})/(\d{4})`. -/
def findSlashDate : List Char → Option (List Char × List Char × List Char)
  | [] => none
  | c :: cs =>
    match matchSlashAt (c :: cs) with
    | some r => some r
    | none => findSlashDate cs

/-- Attempt `(\d{4})-(\d{2})-(\d{2})` at the current position, returning
the whole matched slice (`match.group(0)`). -/
def matchDashAt : List Char → Option (List Char)
  | y1 :: y2 :: y3 :: y4 :: s1 :: m1 :: m2 :: s2 :: d1 :: d2 :: _ =>
    if y1.isDigit && y2.isDigit && y3.isDigit && y4.isDigit && s1 == '-' &&
        m1.isDigit && m2.isDigit && s2 == '-' && d1.isDigit && d2.isDigit then
      some [y1, y2, y3, y4, s1, m1, m2, s2, d1, d2]
    else none
  | _ => none

/-- Leftmost match of `(\d{4})-(\d{2})-(\d{2})`. -/
def findDashDate : List Char → Option (List Char)
  | [] => none
  | c :: cs =>
    match matchDashAt (c :: cs) with
    | some r => some r
    | none => findDashDate cs

/-- `extract_date`: `DD/MM/YYYY` rewritten to `YYYY-MM-DD`, else a literal
`YYYY-MM-DD`, else nothing. -/
def extract_date (text : String) : Option String :=
  match findSlashDate text.data with
  | some (day, month, year) =>
    some (String.mk (year ++ '-' :: (month ++ '-' :: day)))
  | none =>
    match findDashDate text.data with
    | some m => some (String.mk m)
    | none => none

/-- `extract_intervention_type`: the first literal of the priority list
found as a substring of the upper-cased text. -/
def extract_intervention_type (text : String) : Option String :=
  INTERVENTION_TYPES.find? (fun itype => containsSub itype.data (upperStr text).data)

/-! ### `services/intent_parser.py` — detectors -/

/-- Test whether any keyword of the list occurs in the normalized text. -/
def anyKw (kws : List String) (textUpper : String) : Bool :=
  kws.any (fun kw => containsSub kw.data textUpper.data)

/-- `detect_help`: an aid keyword or question mark in a short message. -/
def detect_help (text : String) : Bool :=
  anyKw ["AIDE", "HELP", "AIDEZ", "AIDER", "COMMENT", "?"] (normalize_text text)
    && decide (text.length < 50)

/-- `detect_delete`: a deletion keyword together with a reference. -/
def detect_delete (text : String) : Option JDict :=
  if anyKw ["SUPPRIMER", "ANNULER", "SUPPR", "DELETE", "EFFACER"]
      (normalize_text text) then
    match extract_reference text with
    | some ref => some [("reference", JVal.s ref)]
    | none => none
  else none

/-- The tail of the pattern `TYPE\s+([A-Z\s]+)` immediately after an
occurrence of `TYPE`: at least one whitespace character, then the greedy
class run; when the class run after the whitespace is empty, backtracking
gives up one whitespace character to the class if possible. -/
def typeClauseAt (l : List Char) : Option (List Char) :=
  let ws := l.takeWhile isSpaceChar
  let rest := l.dropWhile isSpaceChar
  if ws.length == 0 then none
  else
    let r1 := rest.takeWhile isUpperOrSpace
    if !r1.isEmpty then some r1
    else if decide (2 ≤ ws.length) then some (ws.drop (ws.length - 1))
    else none

/-- Leftmost successful match of `TYPE\s+([A-Z\s]+)`, returning the
captured group. -/
def findTypeClause : List Char → Option (List Char)
  | [] => none
  | c :: cs =>
    if isPrefixList ['T', 'Y', 'P', 'E'] (c :: cs) then
      match typeClauseAt ((c :: cs).drop 4) with
      | some g => some g
      | none => findTypeClause cs
    else findTypeClause cs

/-- The first whitespace-separated token (`str.split()[0]`) of a stripped
non-empty string. -/
def firstToken (s : String) : String :=
  String.mk (s.data.takeWhile (fun c => !isSpaceChar c))

/-- `detect_update`: an update keyword, a reference, and a resolvable
`TYPE <value>` clause; declines when no field clause is found. -/
def detect_update (text : String) : Option JDict :=
  if anyKw ["MODIFIER", "CORRIGER", "CHANGER", "UPDATE", "MODIF"]
      (normalize_text text) then
    match extract_reference text with
    | some ref =>
      let new_type : Option String :=
        match findTypeClause (normalize_text text).data with
        | some g =>
          let potential_type := trimStr (String.mk g)
          match INTERVENTION_TYPES.find?
              (fun itype => containsSub itype.data potential_type.data) with
          | some itype => some itype
          | none =>
            if potential_type.isEmpty then none
            else some (firstToken potential_type)
        | none => none
      match new_type with
      | some nt =>
        some [("reference", JVal.s ref), ("fields", JVal.obj [("type", JVal.s nt)])]
      | none => none
    | none => none
  else none

/-- The keyword `AUJOURD'HUI` (built with an explicit apostrophe). -/
def motAujourdhui : String :=
  String.mk ['A', 'U', 'J', 'O', 'U', 'R', 'D', Char.ofNat 39, 'H', 'U', 'I']

/-- `detect_list`: today/month keywords first, then a generic list keyword
with an optional explicit date. -/
def detect_list (text : String) : Option JDict :=
  let tu := normalize_text text
  if containsSub motAujourdhui.data tu.data
      || containsSub (String.data ("AUJOURDHUI")) tu.data then
    some [("scope", JVal.s ("TODAY"))]
  else if containsSub (String.data ("MOIS")) tu.data then
    some [("scope", JVal.s ("MOIS"))]
  else if containsSub (String.data ("LISTE")) tu.data
      || containsSub (String.data ("LISTER")) tu.data then
    match extract_date text with
    | some d => some [("scope", JVal.s ("DATE")), ("date", JVal.s d)]
    | none => some [("scope", JVal.s ("TODAY"))]
  else none

/-- `detect_search`: a search keyword together with a reference. -/
def detect_search (text : String) : Option JDict :=
  if anyKw ["CHERCHER", "RECHERCHER", "VOIR", "DETAIL", "DÉTAIL", "TROUVER"]
      (normalize_text text) then
    match extract_reference text with
    | some ref => some [("reference", JVal.s ref)]
    | none => none
  else none

/-- `detect_get_images`: an images keyword together with a reference. -/
def detect_get_images (text : String) : Option JDict :=
  if anyKw ["IMAGES", "PHOTOS", "VOIR PHOTO", "VOIR IMAGE"]
      (normalize_text text) then
    match extract_reference text with
    | some ref => some [("reference", JVal.s ref)]
    | none => none
  else none

/-- `detect_add_image`: media attached or an image keyword; requires a
reference, declining otherwise. -/
def detect_add_image (text : String) (has_media : Bool) : Option JDict :=
  if has_media
      || anyKw ["PHOTO", "IMAGE", "📸", "📷", "🖼"] (normalize_text text) then
    match extract_reference text with
    | some ref => some [("reference", JVal.s ref)]
    | none => none
  else none

/-- The tail `\s*[:\-]\s*(.+)` of the comment pattern, matched right after
an occurrence of the reference: optional whitespace, a `:` or `-`
separator, then `\s*(.+)` where `.` does not match a newline.  The greedy
`\s*` before `(.+)` backtracks until the next character exists and is not a
newline. -/
def sepCommentTail (l : List Char) : Option (List Char) :=
  match l.dropWhile isSpaceChar with
  | [] => none
  | c :: rest =>
    if c == ':' || c == '-' then
      let r := rest.dropWhile isSpaceChar
      match r with
      | _ :: _ => some (r.takeWhile (fun x => !(x == '\n')))
      | [] =>
        -- `rest` is all whitespace: `\s*` gives characters back until the
        -- next one is not a newline; the match is then that single
        -- whitespace character (everything after it is newlines).
        match (rest.filter (fun x => !(x == '\n'))).reverse with
        | w :: _ => some [w]
        | [] => none
    else none

/-- Leftmost match of `{ref}\s*[:\-]\s*(.+)` with `re.IGNORECASE`,
returning the captured group. -/
def scanCommentMatch (refL : List Char) : List Char → Option (List Char)
  | [] => none
  | c :: cs =>
    if ciPrefix refL (c :: cs) then
      match sepCommentTail ((c :: cs).drop refL.length) with
      | some g => some g
      | none => scanCommentMatch refL cs
    else scanCommentMatch refL cs

/-- `detect_add_comment`: a reference followed by `:` or `-` and a trailing
text whose stripped length exceeds 2, captured under key `commentaire`. -/
def detect_add_comment (text : String) : Option JDict :=
  match extract_reference text with
  | none => none
  | some ref =>
    let text_clean := trimStr text
    match scanCommentMatch ref.data text_clean.data with
    | some g =>
      let comment := trimStr (String.mk g)
      if decide (2 < comment.length) then
        some [("reference", JVal.s ref), ("commentaire", JVal.s comment)]
      else none
    | none => none

/-- Splitting on every newline, keeping empty pieces (`str.split("\n")`). -/
def splitNl : List Char → List (List Char)
  | [] => [[]]
  | c :: cs =>
    if c == '\n' then [] :: splitNl cs
    else
      match splitNl cs with
      | [] => [[c]]
      | l :: ls => (c :: l) :: ls

/-- `detect_create_bulk`: at least two non-blank lines each yielding a type
and a reference; an explicit date anywhere becomes the shared date. -/
def detect_create_bulk (text : String) : Option JDict :=
  let lines := ((splitNl (trimStr text).data).map trimChars).filter
    (fun l => !l.isEmpty)
  if decide (lines.length < 2) then none
  else
    let date := pyOrStr (extract_date text) ("TODAY")
    let interventions := lines.filterMap (fun l =>
      match extract_intervention_type (String.mk l),
          extract_reference (String.mk l) with
      | some itype, some ref =>
        some (JVal.obj [("type", JVal.s itype), ("reference", JVal.s ref)])
      | _, _ => none)
    if decide (2 ≤ interventions.length) then
      some [("date", JVal.s date), ("interventions", JVal.arr interventions)]
    else none

/-- `detect_create_one`: a type and a reference extracted from the whole
message; the date defaults to the sentinel string `TODAY`. -/
def detect_create_one (text : String) : Option JDict :=
  match extract_intervention_type text, extract_reference text with
  | some itype, some ref =>
    let date := pyOrStr (extract_date text) ("TODAY")
    some [("date", JVal.s date), ("type", JVal.s itype), ("reference", JVal.s ref)]
  | _, _ => none

/-- The result dataclass of the parser (`success`, optional action and
data, `ambiguous`). -/
structure ParseResult where
  success : Bool
  action : Option Action := none
  data : Option JDict := none
  ambiguous : Bool := false

/-- Helper: the successful `ParseResult` built by every matched detector. -/
def PR (a : Action) (d : JDict) : ParseResult :=
  { success := true, action := some a, data := some d }

/-- `parse_message`: the ordered rule cascade.  Empty input and
media-without-reference short-circuit to terminal `ERROR` results; a full
fall-through yields the ambiguous result that triggers the fallback. -/
def parse_message (text : String) (has_media : Bool) : ParseResult :=
  if (trimChars text.data).isEmpty then
    if has_media then
      PR .ERROR [("message",
        JVal.s ("Image reçue sans référence d" ++ apos ++ "intervention"))]
    else
      PR .ERROR [("message", JVal.s ("Message vide"))]
  else
    let t := trimStr text
    if detect_help t then PR .HELP []
    else if has_media then
      match detect_add_image t true with
      | some d => PR .ADD_IMAGE d
      | none =>
        PR .ERROR [("message",
          JVal.s ("Image reçue sans référence d" ++ apos ++ "intervention"))]
    else
      match detect_delete t with
      | some d => PR .DELETE d
      | none =>
      match detect_update t with
      | some d => PR .UPDATE d
      | none =>
      match detect_list t with
      | some d => PR .LIST d
      | none =>
      match detect_search t with
      | some d => PR .SEARCH d
      | none =>
      match detect_get_images t with
      | some d => PR .GET_IMAGES d
      | none =>
      match detect_add_image t false with
      | some d => PR .ADD_IMAGE d
      | none =>
      match detect_create_bulk t with
      | some d => PR .CREATE_BULK d
      | none =>
      match detect_create_one t with
      | some d => PR .CREATE_ONE d
      | none =>
      match detect_add_comment t with
      | some d => PR .ADD_COMMENT d
      | none => { success := false, ambiguous := true }

/-! ### Storage model

DynamoDB is modelled as an in-memory list of items keyed by
`(technicien_phone, reference)`.  `query` on the partition key returns the
matching items in retrieval order (the list order of the model);
`put_item` replaces the item with the same key or appends; `update_item`
modifies the item with the key, or — DynamoDB upsert semantics — creates a
fresh item carrying only the written attributes when the key is absent. -/

/-- A stored comment object (`{"text": ..., "created_at": ...}`). -/
structure CommentObj where
  text : String
  created_at : String
deriving DecidableEq

/-- A stored image reference (`{"s3_key": ..., "uploaded_at": ...}`). -/
structure ImageObj where
  s3_key : String
  uploaded_at : String
deriving DecidableEq

/-- A DynamoDB intervention item. -/
structure Item where
  technicien_phone : String
  reference : String
  type : String
  date : String
  created_at : String
  updated_at : String
  status : String
  comments : List CommentObj
  images : List ImageObj
deriving DecidableEq

/-- The table contents. -/
abbrev Store := List Item

/-- `table.get_item(Key=...)`: the item with the given key, if present. -/
def findItem (store : Store) (phone reference : String) : Option Item :=
  store.find? (fun i => i.technicien_phone == phone && i.reference == reference)

/-- `table.put_item(Item=...)`: replace the item with the same key, or
append. -/
def putItem (store : Store) (it : Item) : Store :=
  if (findItem store it.technicien_phone it.reference).isSome then
    store.map (fun j =>
      if j.technicien_phone == it.technicien_phone
          && j.reference == it.reference then it else j)
  else store ++ [it]

/-- A blank item: the attribute values a DynamoDB `update_item` upsert
starts from when the key is absent (only the written attributes are set;
`if_not_exists(comments/images, [])` starts from the empty list). -/
def blankItem (phone reference : String) : Item :=
  { technicien_phone := phone, reference := reference, type := "", date := "",
    created_at := "", updated_at := "", status := "", comments := [],
    images := [] }

/-- `table.update_item(Key=...)`: apply the update expression `f` to the
item with the key, or to a blank item (upsert) when the key is absent. -/
def updateItem (store : Store) (phone reference : String) (f : Item → Item) :
    Store :=
  if (findItem store phone reference).isSome then
    store.map (fun j =>
      if j.technicien_phone == phone && j.reference == reference then f j else j)
  else store ++ [f (blankItem phone reference)]

/-- The outcome of the OpenAI chat-completion call on an ambiguous
message: a parsed JSON object, a `json.JSONDecodeError`, or any other
exception with its message. -/
inductive AiOutcome where
  | ok (result : JDict)
  | badJson
  | exn (msg : String)

/-- The ambient environment: configuration flags of the collaborators and
the values `datetime.utcnow()` produces during the request (`now` the ISO
timestamp, `today` the current `YYYY-MM-DD` day, `weekStart`/`monthStart`
the derived period starts), plus the injected external oracles (OpenAI
outcome, S3/Twilio failures, per-item `ClientError`s of the bulk loop, the
presigned-URL generator, and the text DynamoDB's deterministic
`ValidationException` carries when an update request names unused
expression-attribute aliases). -/
structure Env where
  dbConfigured : Bool
  openaiKey : Bool
  aiOutcome : AiOutcome
  now : String
  today : String
  weekStart : String
  monthStart : String
  twilioOk : Bool
  s3Configured : Bool
  s3Fail : Option String
  s3Key : String
  presign : String → Option String
  bulkFaults : Nat → Option String
  dynamoErrMsg : String

/-- The error dictionary returned by every service when the table is not
configured. -/
def dbErr : JDict := [("error", JVal.s ("Base de données non configurée"))]

/-- The not-found error dictionary. -/
def notFoundErr (reference : String) : JDict :=
  [("error", JVal.s ("Intervention " ++ reference ++ " non trouvée"))]

/-- The already-soft-deleted error dictionary. -/
def deletedErr (reference : String) : JDict :=
  [("error", JVal.s ("Intervention " ++ reference ++ " a été supprimée"))]

/-! ### `services/intervention_service.py` -/

/-- `create_intervention`: reject when an active item with the same key
exists, else write the item; the date defaults to the current day only
when the argument is absent or empty. -/
def create_intervention (env : Env) (phone intervention_type reference : String)
    (date : Option String) (store : Store) : JDict × Store :=
  if !env.dbConfigured then (dbErr, store)
  else
    let intervention_date := pyOrStr date env.today
    let item : Item :=
      { technicien_phone := phone, reference := reference,
        type := upperStr intervention_type, date := intervention_date,
        created_at := env.now, updated_at := env.now, status := "active",
        comments := [], images := [] }
    let existsActive :=
      match findItem store phone reference with
      | some ex => ex.status == "active"
      | none => false
    if existsActive then
      ([("error", JVal.s ("L" ++ apos ++ "intervention " ++ reference
          ++ " existe déjà"))], store)
    else
      ([("success", JVal.b true),
        ("intervention", JVal.obj
          [("type", JVal.s (upperStr intervention_type)),
           ("reference", JVal.s reference),
           ("date", JVal.s intervention_date)])],
       putItem store item)

/-- One iteration of the bulk-creation loop: skip items without a truthy
reference; `put_item` each remaining item, collecting the created pair or
the `ClientError` (injected through `env.bulkFaults` at the item's
position). -/
def bulkStep (env : Env) (phone d : String) (i : Nat) (it : JDict)
    (acc : List JDict × List JDict × Store) : List JDict × List JDict × Store :=
  let (created, errors, store) := acc
  match getStrOpt it "reference" with
  | none => (created, errors, store)
  | some ref =>
    if ref.isEmpty then (created, errors, store)
    else
      let int_type := upperStr (getStrD it "type" (""))
      let item : Item :=
        { technicien_phone := phone, reference := ref, type := int_type,
          date := d, created_at := env.now, updated_at := env.now,
          status := "active", comments := [], images := [] }
      match env.bulkFaults i with
      | none =>
        (created ++ [[("type", JVal.s int_type), ("reference", JVal.s ref)]],
         errors, putItem store item)
      | some e =>
        (created, errors ++ [[("reference", JVal.s ref), ("error", JVal.s e)]],
         store)

/-- The bulk-creation loop over the item list, threading the item index. -/
def bulkLoop (env : Env) (phone d : String) :
    List JDict → Nat → (List JDict × List JDict × Store) →
    List JDict × List JDict × Store
  | [], _, acc => acc
  | it :: rest, i, acc => bulkLoop env phone d rest (i + 1) (bulkStep env phone d i it acc)

/-- `create_bulk_interventions`: write each item independently, returning
the created list, its count, and the per-item errors (or `None`). -/
def create_bulk_interventions (env : Env) (phone : String)
    (interventions : List JDict) (date : Option String) (store : Store) :
    JDict × Store :=
  if !env.dbConfigured then (dbErr, store)
  else
    let d := pyOrStr date env.today
    let (created, errors, store') := bulkLoop env phone d interventions 0 ([], [], store)
    ([("success", JVal.b (decide (0 < created.length))),
      ("created", JVal.arr (created.map JVal.obj)),
      ("count", JVal.n created.length),
      ("errors", if errors.isEmpty then JVal.null
        else JVal.arr (errors.map JVal.obj))],
     store')

/-- `get_intervention`: the full record, or an error when missing or
soft-deleted. -/
def get_intervention (env : Env) (phone reference : String) (store : Store) :
    JDict × Store :=
  if !env.dbConfigured then (dbErr, store)
  else
    match findItem store phone reference with
    | none => (notFoundErr reference, store)
    | some it =>
      if it.status == "deleted" then (deletedErr reference, store)
      else
        ([("success", JVal.b true),
          ("intervention", JVal.obj
            [("type", JVal.s it.type), ("reference", JVal.s it.reference),
             ("date", JVal.s it.date), ("created_at", JVal.s it.created_at),
             ("comments", JVal.arr (it.comments.map (fun c =>
               JVal.obj [("text", JVal.s c.text),
                         ("created_at", JVal.s c.created_at)]))),
             ("images_count", JVal.n it.images.length)])],
         store)

/-- The formatted record a listing produces for one item. -/
def fmtListed (it : Item) : JDict :=
  [("type", JVal.s it.type), ("reference", JVal.s it.reference),
   ("date", JVal.s it.date), ("comments_count", JVal.n it.comments.length),
   ("images_count", JVal.n it.images.length)]

/-- Stable insertion for the date-descending sort: an element is placed
before the first element whose date is not greater than its own, so equal
dates keep their original relative order — exactly Python's stable
`list.sort(key=..., reverse=True)`. -/
def insertByDateDesc (x : JDict) : List JDict → List JDict
  | [] => [x]
  | y :: ys =>
    if strGe (getStrD x "date" ("")) (getStrD y "date" ("")) then x :: y :: ys
    else y :: insertByDateDesc x ys

/-- Stable date-descending sort of the formatted records. -/
def sortByDateDesc : List JDict → List JDict
  | [] => []
  | x :: xs => insertByDateDesc x (sortByDateDesc xs)

/-- `list_interventions`: query the technician's items, keep the active
ones, filter by scope (`"today"`/`"week"`/`"month"` exactly, else an
explicit truthy date, else no date filter), format and sort. -/
def list_interventions (env : Env) (phone scope : String)
    (date : Option String) (store : Store) : JDict × Store :=
  if !env.dbConfigured then (dbErr, store)
  else
    let items0 := store.filter (fun i => i.technicien_phone == phone)
    let items1 := items0.filter (fun i => i.status == "active")
    let items2 :=
      if scope == "today" then items1.filter (fun i => i.date == env.today)
      else if scope == "week" then
        items1.filter (fun i => strGe i.date env.weekStart)
      else if scope == "month" then
        items1.filter (fun i => strGe i.date env.monthStart)
      else if pyTruthyOpt date then
        items1.filter (fun i => i.date == date.getD (""))
      else items1
    let interventions := sortByDateDesc (items2.map fmtListed)
    ([("success", JVal.b true), ("scope", JVal.s scope),
      ("count", JVal.n interventions.length),
      ("interventions", JVal.arr (interventions.map JVal.obj))],
     store)

/-- `update_intervention`: verify the target exists and is not
soft-deleted, then issue the update.  The expression builder only writes
the `type` (upper-cased) and `date` fields and ignores any other key, but
the call always supplies both `#t`/`#d` name aliases, so DynamoDB rejects
the request (unused ExpressionAttributeNames, a `ValidationException`
mapped to the DB error dictionary with no write) unless both fields are
present. -/
def update_intervention (env : Env) (phone reference : String)
    (fields : List (String × String)) (store : Store) : JDict × Store :=
  if !env.dbConfigured then (dbErr, store)
  else
    match findItem store phone reference with
    | none => (notFoundErr reference, store)
    | some ex =>
      if ex.status == "deleted" then (deletedErr reference, store)
      else
        let lookup := fun k => ((fields.find? (fun p => p.1 == k)).map Prod.snd)
        -- The source passes ExpressionAttributeNames {"#t": "type",
        -- "#d": "date"} on EVERY call, while the built update expression
        -- references #t only when "type" is in `fields` and #d only when
        -- "date" is.  DynamoDB rejects a request with an unused
        -- ExpressionAttributeNames entry (a deterministic
        -- ValidationException, a ClientError whose text is injected
        -- through `env.dynamoErrMsg`), caught and mapped to the DB error
        -- dictionary with no write; the update only goes through when
        -- both aliases are used, i.e. both fields are present.
        if (lookup ("type")).isSome && (lookup ("date")).isSome then
          let f := fun (it : Item) =>
            { it with
              updated_at := env.now,
              type := match lookup ("type") with
                | some t => upperStr t
                | none => it.type,
              date := match lookup ("date") with
                | some dd => dd
                | none => it.date }
          ([("success", JVal.b true), ("reference", JVal.s reference),
            ("updated_fields", JVal.arr (fields.map (fun p => JVal.s p.1)))],
           updateItem store phone reference f)
        else
          ([("error", JVal.s ("Erreur base de données: " ++ env.dynamoErrMsg))],
           store)

/-- `delete_intervention`: verify the target exists (its soft-deleted
status is NOT checked), then set `status = "deleted"`. -/
def delete_intervention (env : Env) (phone reference : String)
    (store : Store) : JDict × Store :=
  if !env.dbConfigured then (dbErr, store)
  else
    match findItem store phone reference with
    | none => (notFoundErr reference, store)
    | some _ =>
      ([("success", JVal.b true), ("reference", JVal.s reference),
        ("deleted", JVal.b true)],
       updateItem store phone reference (fun it =>
         { it with status := "deleted", updated_at := env.now }))

/-- `add_comment`: verify the target exists and is not soft-deleted, then
append the comment object. -/
def add_comment (env : Env) (phone reference comment : String)
    (store : Store) : JDict × Store :=
  if !env.dbConfigured then (dbErr, store)
  else
    match findItem store phone reference with
    | none => (notFoundErr reference, store)
    | some ex =>
      if ex.status == "deleted" then (deletedErr reference, store)
      else
        ([("success", JVal.b true), ("reference", JVal.s reference),
          ("comment", JVal.s comment)],
         updateItem store phone reference (fun it =>
           { it with
             comments := it.comments ++ [⟨comment, env.now⟩],
             updated_at := env.now }))

/-- `add_image_reference`: append the S3 key to the item's image list.
There is NO existence or soft-deleted check: on a missing key the
`update_item` call upserts a fresh item. -/
def add_image_reference (env : Env) (phone reference s3_key : String)
    (store : Store) : JDict × Store :=
  if !env.dbConfigured then (dbErr, store)
  else
    ([("success", JVal.b true), ("s3_key", JVal.s s3_key)],
     updateItem store phone reference (fun it =>
       { it with
         images := it.images ++ [⟨s3_key, env.now⟩],
         updated_at := env.now }))

/-- `get_image_references`: verify the target exists (its soft-deleted
status is NOT checked), then return the raw image references. -/
def get_image_references (env : Env) (phone reference : String)
    (store : Store) : JDict × Store :=
  if !env.dbConfigured then (dbErr, store)
  else
    match findItem store phone reference with
    | none => (notFoundErr reference, store)
    | some it =>
      ([("success", JVal.b true), ("reference", JVal.s reference),
        ("images", JVal.arr (it.images.map (fun im =>
          JVal.obj [("s3_key", JVal.s im.s3_key),
                    ("uploaded_at", JVal.s im.uploaded_at)])))],
       store)

/-! ### `services/image_service.py` -/

/-- `upload_image`: download from Twilio (failure injected through
`env.twilioOk`), upload to S3 (configuration and `ClientError` injected
through `env.s3Configured`/`env.s3Fail`, the generated key through
`env.s3Key`), then record the reference in the table. -/
def upload_image (env : Env) (phone reference media_url : String)
    (store : Store) : JDict × Store :=
  if !env.twilioOk then
    ([("error", JVal.s ("Impossible de telecharger l" ++ apos ++ "image"))], store)
  else if !env.s3Configured then
    ([("error", JVal.s ("S3 non configure"))], store)
  else
    match env.s3Fail with
    | some e => ([("error", JVal.s ("Erreur upload S3: " ++ e))], store)
    | none =>
      let (db_result, store') := add_image_reference env phone reference env.s3Key store
      if (jget db_result "error").isSome then (db_result, store')
      else
        ([("success", JVal.b true), ("reference", JVal.s reference),
          ("s3_key", JVal.s env.s3Key),
          ("message", JVal.s ("Image ajoutee avec succes"))], store')

/-- `get_images`: the stored image references resolved to presigned URLs
(the generator injected through `env.presign`; keys whose URL generation
fails are dropped). -/
def get_images (env : Env) (phone reference : String) (store : Store) :
    JDict × Store :=
  let (db_result, store') := get_image_references env phone reference store
  if (jget db_result "error").isSome then (db_result, store')
  else
    let images := match jget db_result "images" with
      | some (JVal.arr l) => l
      | _ => []
    if images.isEmpty then
      ([("success", JVal.b true), ("reference", JVal.s reference),
        ("count", JVal.n 0), ("images", JVal.arr []),
        ("message", JVal.s ("Aucune image pour cette intervention"))], store')
    else
      let image_urls := images.filterMap (fun v =>
        match v with
        | JVal.obj o =>
          match getStrOpt o "s3_key" with
          | some k =>
            if k.isEmpty then none
            else
              match env.presign k with
              | some url =>
                some (JVal.obj [("url", JVal.s url),
                  ("uploaded_at", (jget o "uploaded_at").getD JVal.null)])
              | none => none
          | none => none
        | _ => none)
      ([("success", JVal.b true), ("reference", JVal.s reference),
        ("count", JVal.n image_urls.length),
        ("images", JVal.arr image_urls)], store')

/-! ### `services/agent_service.py` -/

/-- `call_openai_fallback`: short-circuit to an error dictionary when the
API key is not configured (the oracle is never consulted); otherwise
validate the collaborator's outcome — parse failure, missing `action` key
and other exceptions each map to their error dictionary. -/
def call_openai_fallback (env : Env) (message phone : String) : JDict :=
  if !env.openaiKey then
    [("action", JVal.s ("ERROR")),
     ("data", JVal.obj [("message",
       JVal.s ("Service IA non disponible. Reformulez votre message."))])]
  else
    match env.aiOutcome with
    | .ok result =>
      if (jget result "action").isSome then result
      else
        [("action", JVal.s ("ERROR")),
         ("data", JVal.obj [("message", JVal.s ("Réponse IA invalide"))])]
    | .badJson =>
      [("action", JVal.s ("ERROR")),
       ("data", JVal.obj [("message",
         JVal.s ("Erreur de parsing de la réponse IA"))])]
    | .exn e =>
      [("action", JVal.s ("ERROR")),
       ("data", JVal.obj [("message", JVal.s ("Erreur du service IA: " ++ e))])]

/-- The canonical response of the executor together with the resulting
table contents: `{"action": ..., "data": {...}}` plus the threaded store. -/
structure ExecResult where
  action : String
  data : JDict
  store : Store

/-- The executor's mapping of a service error dictionary to the canonical
`ERROR` response (`{"message": result["error"]}`). -/
def errResp (result : JDict) (store : Store) : ExecResult :=
  ⟨Action.ERROR.val, [("message", (jget result "error").getD JVal.null)], store⟩

/-- A `JVal` read where the source then uses the value as a `str` (every
producer stores strings here; a non-string would raise inside the
executor's `try`). -/
def jvalAsStr : JVal → String
  | JVal.s v => v
  | _ => ""

/-- `execute_action`: the per-action table of the executor.  Each branch
reads its required fields from `data` with `dict.get`, invokes the service
operation, and maps the outcome into the canonical response.  (The match
is exhaustive over the closed enum, so the source's unreachable
`Action non supportee` default needs no branch.) -/
def execute_action (env : Env) (phone : String) (action : Action)
    (data : JDict) (media_url : Option String) (store : Store) : ExecResult :=
  match action with
  | .CREATE_ONE =>
    let (result, store') := create_intervention env phone
      (getStrD data "type" ("")) (getStrD data "reference" (""))
      (getStrOpt data "date") store
    if (jget result "error").isSome then errResp result store'
    else
      ⟨action.val,
       (match jget result "intervention" with
        | some (JVal.obj o) => o
        | _ => data), store'⟩
  | .CREATE_BULK =>
    let interventions := match jget data "interventions" with
      | some (JVal.arr l) => l.filterMap (fun v => match v with
          | JVal.obj o => some o
          | _ => none)
      | _ => []
    let (result, store') := create_bulk_interventions env phone interventions
      (getStrOpt data "date") store
    if (jget result "error").isSome then errResp result store'
    else
      ⟨action.val,
       [("count", (jget result "count").getD (JVal.n 0)),
        ("interventions", (jget result "created").getD (JVal.arr []))],
       store'⟩
  | .ADD_COMMENT =>
    let (result, store') := add_comment env phone
      (getStrD data "reference" ("")) (getStrD data "comment" ("")) store
    if (jget result "error").isSome then errResp result store'
    else ⟨action.val, data, store'⟩
  | .ADD_IMAGE =>
    if !pyTruthyOpt media_url then
      ⟨Action.ERROR.val,
       [("message", JVal.s ("Aucune image detectee dans le message"))], store⟩
    else
      let (result, store') := upload_image env phone
        (getStrD data "reference" ("")) (media_url.getD ("")) store
      if (jget result "error").isSome then errResp result store'
      else
        ⟨action.val, [("reference", (jget data "reference").getD JVal.null)],
         store'⟩
  | .UPDATE =>
    let fields : List (String × String) :=
      (match jget data "new_type" with
       | some v => [("type", jvalAsStr v)]
       | none => []) ++
      (match jget data "new_date" with
       | some v => [("date", jvalAsStr v)]
       | none => [])
    let (result, store') := update_intervention env phone
      (getStrD data "reference" ("")) fields store
    if (jget result "error").isSome then errResp result store'
    else ⟨action.val, data, store'⟩
  | .DELETE =>
    let (result, store') := delete_intervention env phone
      (getStrD data "reference" ("")) store
    if (jget result "error").isSome then errResp result store'
    else
      ⟨action.val, [("reference", (jget data "reference").getD JVal.null)],
       store'⟩
  | .LIST =>
    let (result, store') := list_interventions env phone
      (getStrD data "scope" ("today")) (getStrOpt data "date") store
    if (jget result "error").isSome then errResp result store'
    else
      ⟨action.val,
       [("scope", (jget result "scope").getD JVal.null),
        ("count", (jget result "count").getD (JVal.n 0)),
        ("interventions", (jget result "interventions").getD (JVal.arr []))],
       store'⟩
  | .SEARCH =>
    let (result, store') := get_intervention env phone
      (getStrD data "reference" ("")) store
    if (jget result "error").isSome then errResp result store'
    else
      ⟨action.val,
       (match jget result "intervention" with
        | some (JVal.obj o) => o
        | _ => []), store'⟩
  | .GET_IMAGES =>
    let (result, store') := get_images env phone
      (getStrD data "reference" ("")) store
    if (jget result "error").isSome then errResp result store'
    else
      ⟨action.val,
       [("reference", (jget data "reference").getD JVal.null),
        ("count", (jget result "count").getD (JVal.n 0)),
        ("images", (jget result "images").getD (JVal.arr []))],
       store'⟩
  | .HELP => ⟨action.val, data, store⟩
  | .ERROR => ⟨action.val, data, store⟩

/-- `process_message`: rule cascade first; on an ambiguous result the
OpenAI fallback, whose returned action string must name one of the 11
enum members (the `ValueError` of an unknown tag maps to the
`Action non reconnue` error); the resolved action is then executed. -/
def process_message (env : Env) (phone message : String) (has_media : Bool)
    (media_url : Option String) (store : Store) : ExecResult :=
  let pr := parse_message message has_media
  if pr.success && !pr.ambiguous then
    match pr.action with
    | some a => execute_action env phone a (pr.data.getD []) media_url store
    | none =>
      -- unreachable: `parse_message` always sets the action on success
      ⟨Action.ERROR.val, [("message", JVal.s ("Message non reconnu"))], store⟩
  else if pr.ambiguous then
    let openai_result := call_openai_fallback env message phone
    let action_str := (jget openai_result "action").getD (JVal.s ("ERROR"))
    match Action.ofString (jvalAsStr action_str) with
    | some a =>
      let d := match jget openai_result "data" with
        | some (JVal.obj o) => o
        | _ => []
      execute_action env phone a d media_url store
    | none =>
      ⟨Action.ERROR.val, [("message", JVal.s ("Action non reconnue"))], store⟩
  else
    ⟨Action.ERROR.val, [("message", JVal.s ("Message non reconnu"))], store⟩


/-! ### Concrete fixtures

A fixed environment and store items used by the concrete evaluations. -/

/-- A fully configured environment with a fixed clock. -/
def testEnv : Env :=
  { dbConfigured := true, openaiKey := false, aiOutcome := .badJson,
    now := "2026-10-12T10:00:00", today := "2026-10-12",
    weekStart := "2026-10-06", monthStart := "2026-10-01",
    twilioOk := true, s3Configured := true, s3Fail := none, s3Key := "KEY1",
    presign := fun k => some ("URL/" ++ k), bulkFaults := fun _ => none,
    dynamoErrMsg := "ValidationException" }

/-- An active intervention of the test technician. -/
def refItem : Item :=
  { technicien_phone := "p1", reference := "149041830", type := "RAC",
    date := "2026-10-12", created_at := "t0", updated_at := "t0",
    status := "active", comments := [], images := [] }

/-- An older active intervention (different date). -/
def oldItem : Item :=
  { refItem with reference := "222222222", date := "2020-01-01" }

/-- A soft-deleted intervention. -/
def delItem : Item :=
  { refItem with reference := "333333333", status := "deleted" }

/-- The test intervention soft-deleted. -/
def refItemDeleted : Item := { refItem with status := "deleted" }

/-- The item a dated-less `CREATE_ONE` writes: its date is the literal
sentinel string `TODAY`. -/
def sentinelItem : Item :=
  { technicien_phone := "p1", reference := "149041830", type := "RAC",
    date := "TODAY", created_at := "2026-10-12T10:00:00",
    updated_at := "2026-10-12T10:00:00", status := "active",
    comments := [], images := [] }

/-- An environment whose second bulk `put_item` raises a `ClientError`. -/
def faultEnv : Env :=
  { testEnv with
    bulkFaults := fun i => if i == 1 then some ("ClientError") else none }

/-- A two-item bulk payload as the cascade produces it. -/
def bulkMsgData : JDict :=
  [("date", JVal.s ("2026-01-02")),
   ("interventions", JVal.arr
     [JVal.obj [("type", JVal.s ("RAC")), ("reference", JVal.s ("111111"))],
      JVal.obj [("type", JVal.s ("SAV")), ("reference", JVal.s ("222222"))]])]

/-- The item the first bulk entry writes. -/
def bulkItem1 : Item :=
  { technicien_phone := "p1", reference := "111111", type := "RAC",
    date := "2026-01-02", created_at := "2026-10-12T10:00:00",
    updated_at := "2026-10-12T10:00:00", status := "active",
    comments := [], images := [] }

/-! ### Per-item characterization of the bulk loop

Direct (loop-free) descriptions of what `create_bulk_interventions` does
with the item at a given position, used to state that the items are
written independently. -/

/-- The truthy reference of a bulk item, if any (items without one are
skipped by the loop). -/
def bulkRef (it : JDict) : Option String :=
  match getStrOpt it "reference" with
  | some r => if r.isEmpty then none else some r
  | none => none

/-- The created-list entry the loop produces for the indexed item: present
iff the item has a truthy reference and its own `put_item` does not fault. -/
def bulkCreatedEntry (env : Env) (p : Nat × JDict) : Option JDict :=
  match bulkRef p.2 with
  | some r =>
    match env.bulkFaults p.1 with
    | none => some [("type", JVal.s (upperStr (getStrD p.2 "type" ("")))),
        ("reference", JVal.s r)]
    | some _ => none
  | none => none

/-- The error-list entry the loop produces for the indexed item: present
iff the item has a truthy reference and its own `put_item` faults. -/
def bulkErrorEntry (env : Env) (p : Nat × JDict) : Option JDict :=
  match bulkRef p.2 with
  | some r =>
    match env.bulkFaults p.1 with
    | some e => some [("reference", JVal.s r), ("error", JVal.s e)]
    | none => none
  | none => none

/-- The store effect of the indexed item: its own `put_item` when the
reference is truthy and the write does not fault, else no effect. -/
def bulkStoreStep (env : Env) (phone d : String) (st : Store)
    (p : Nat × JDict) : Store :=
  match bulkRef p.2 with
  | some r =>
    match env.bulkFaults p.1 with
    | none => putItem st
        { technicien_phone := phone, reference := r,
          type := upperStr (getStrD p.2 "type" ("")), date := d,
          created_at := env.now, updated_at := env.now, status := "active",
          comments := [], images := [] }
    | some _ => st
  | none => st

/-! ## Lemmas

Supporting lemmas about the embedded extractors. -/

/-- A successful slash-date match contains a `/`. -/
theorem matchSlashAt_slash_mem (l : List Char)
    (r : List Char × List Char × List Char) (h : matchSlashAt l = some r) :
    '/' ∈ l := by
  unfold matchSlashAt at h
  split at h
  · rename_i d1 d2 s1 m1 m2 s2 y1 y2 y3 y4 rest
    split at h
    · rename_i hc
      simp only [Bool.and_eq_true, beq_iff_eq] at hc
      have hs1 : s1 = '/' := hc.1.1.1.1.1.1.1.2
      subst hs1
      simp
    · exact absurd h (by simp)
  · exact absurd h (by simp)

/-- A list without `/` has no slash-date match anywhere. -/
theorem findSlashDate_eq_none (l : List Char) (h : '/' ∉ l) :
    findSlashDate l = none := by
  induction l with
  | nil => rfl
  | cons c cs ih =>
    unfold findSlashDate
    cases hm : matchSlashAt (c :: cs) with
    | some r => exact absurd (matchSlashAt_slash_mem _ _ hm) h
    | none =>
      simp only
      exact ih (fun hmem => h (List.mem_cons_of_mem _ hmem))

/-- The day, month and year groups of a slash-date match are digit lists
of lengths 2, 2 and 4. -/
theorem matchSlashAt_shape (l : List Char)
    (dd mm yy : List Char) (h : matchSlashAt l = some (dd, mm, yy)) :
    ∃ d1 d2 m1 m2 y1 y2 y3 y4 : Char,
      dd = [d1, d2] ∧ mm = [m1, m2] ∧ yy = [y1, y2, y3, y4] ∧
      d1.isDigit = true ∧ d2.isDigit = true ∧ m1.isDigit = true ∧
      m2.isDigit = true ∧ y1.isDigit = true ∧ y2.isDigit = true ∧
      y3.isDigit = true ∧ y4.isDigit = true := by
  unfold matchSlashAt at h
  split at h
  · rename_i d1 d2 s1 m1 m2 s2 y1 y2 y3 y4 rest
    split at h
    · rename_i hc
      simp only [Bool.and_eq_true, beq_iff_eq] at hc
      obtain ⟨⟨⟨⟨⟨⟨⟨⟨⟨h1, h2⟩, _⟩, h3⟩, h4⟩, _⟩, h5⟩, h6⟩, h7⟩, h8⟩ := hc
      obtain ⟨hdd, hmm, hyy⟩ : dd = [d1, d2] ∧ mm = [m1, m2] ∧
          yy = [y1, y2, y3, y4] := by
        have := h
        simp only [Option.some.injEq, Prod.mk.injEq] at this
        exact ⟨this.1.symm, this.2.1.symm, this.2.2.symm⟩
      exact ⟨d1, d2, m1, m2, y1, y2, y3, y4, hdd, hmm, hyy,
        h1, h2, h3, h4, h5, h6, h7, h8⟩
    · exact absurd h (by simp)
  · exact absurd h (by simp)

/-- Shape of the leftmost slash-date match. -/
theorem findSlashDate_shape (l : List Char)
    (dd mm yy : List Char) (h : findSlashDate l = some (dd, mm, yy)) :
    ∃ d1 d2 m1 m2 y1 y2 y3 y4 : Char,
      dd = [d1, d2] ∧ mm = [m1, m2] ∧ yy = [y1, y2, y3, y4] ∧
      d1.isDigit = true ∧ d2.isDigit = true ∧ m1.isDigit = true ∧
      m2.isDigit = true ∧ y1.isDigit = true ∧ y2.isDigit = true ∧
      y3.isDigit = true ∧ y4.isDigit = true := by
  induction l with
  | nil => exact absurd h (by simp [findSlashDate])
  | cons c cs ih =>
    unfold findSlashDate at h
    cases hm : matchSlashAt (c :: cs) with
    | some r =>
      rw [hm] at h
      simp only [Option.some.injEq] at h
      subst h
      exact matchSlashAt_shape _ _ _ _ hm
    | none =>
      rw [hm] at h
      exact ih h

/-- Shape of a dash-date match: ten characters with digits around the two
dashes (`match.group(0)`). -/
theorem matchDashAt_shape (l m : List Char) (h : matchDashAt l = some m) :
    ∃ y1 y2 y3 y4 m1 m2 d1 d2 : Char,
      m = [y1, y2, y3, y4, '-', m1, m2, '-', d1, d2] ∧
      y1.isDigit = true ∧ y2.isDigit = true ∧ y3.isDigit = true ∧
      y4.isDigit = true ∧ m1.isDigit = true ∧ m2.isDigit = true ∧
      d1.isDigit = true ∧ d2.isDigit = true := by
  unfold matchDashAt at h
  split at h
  · rename_i y1 y2 y3 y4 s1 m1 m2 s2 d1 d2 rest
    split at h
    · rename_i hc
      simp only [Bool.and_eq_true, beq_iff_eq] at hc
      obtain ⟨⟨⟨⟨⟨⟨⟨⟨⟨h1, h2⟩, h3⟩, h4⟩, hs1⟩, h5⟩, h6⟩, hs2⟩, h7⟩, h8⟩ := hc
      subst hs1; subst hs2
      simp only [Option.some.injEq] at h
      exact ⟨y1, y2, y3, y4, m1, m2, d1, d2, h.symm,
        h1, h2, h3, h4, h5, h6, h7, h8⟩
    · exact absurd h (by simp)
  · exact absurd h (by simp)

/-- Shape of the leftmost dash-date match. -/
theorem findDashDate_shape (l m : List Char) (h : findDashDate l = some m) :
    ∃ y1 y2 y3 y4 m1 m2 d1 d2 : Char,
      m = [y1, y2, y3, y4, '-', m1, m2, '-', d1, d2] ∧
      y1.isDigit = true ∧ y2.isDigit = true ∧ y3.isDigit = true ∧
      y4.isDigit = true ∧ m1.isDigit = true ∧ m2.isDigit = true ∧
      d1.isDigit = true ∧ d2.isDigit = true := by
  induction l with
  | nil => exact absurd h (by simp [findDashDate])
  | cons c cs ih =>
    unfold findDashDate at h
    cases hm : matchDashAt (c :: cs) with
    | some r =>
      rw [hm] at h
      simp only [Option.some.injEq] at h
      subst h
      exact matchDashAt_shape _ _ hm
    | none =>
      rw [hm] at h
      exact ih h

/-- A digit is not a slash. -/
theorem digit_ne_slash (c : Char) (h : c.isDigit = true) : ¬ c = '/' := by
  intro he
  subst he
  exact absurd h (by decide)

/-- A well-shaped `YYYY-MM-DD` list matches the dash-date pattern at its
head and the match is the whole list. -/
theorem findDashDate_self (y1 y2 y3 y4 m1 m2 d1 d2 : Char)
    (h1 : y1.isDigit = true) (h2 : y2.isDigit = true) (h3 : y3.isDigit = true)
    (h4 : y4.isDigit = true) (h5 : m1.isDigit = true) (h6 : m2.isDigit = true)
    (h7 : d1.isDigit = true) (h8 : d2.isDigit = true) :
    findDashDate [y1, y2, y3, y4, '-', m1, m2, '-', d1, d2] =
      some [y1, y2, y3, y4, '-', m1, m2, '-', d1, d2] := by
  unfold findDashDate matchDashAt
  simp [h1, h2, h3, h4, h5, h6, h7, h8]

/-- A `YYYY-MM-DD` digit/dash list contains no slash. -/
theorem slash_not_mem_date (y1 y2 y3 y4 m1 m2 d1 d2 : Char)
    (h1 : y1.isDigit = true) (h2 : y2.isDigit = true) (h3 : y3.isDigit = true)
    (h4 : y4.isDigit = true) (h5 : m1.isDigit = true) (h6 : m2.isDigit = true)
    (h7 : d1.isDigit = true) (h8 : d2.isDigit = true) :
    '/' ∉ [y1, y2, y3, y4, '-', m1, m2, '-', d1, d2] := by
  intro hmem
  simp only [List.mem_cons, List.not_mem_nil, or_false] at hmem
  rcases hmem with h | h | h | h | h | h | h | h | h | h
  · exact digit_ne_slash _ h1 h.symm
  · exact digit_ne_slash _ h2 h.symm
  · exact digit_ne_slash _ h3 h.symm
  · exact digit_ne_slash _ h4 h.symm
  · exact absurd h (by decide)
  · exact digit_ne_slash _ h5 h.symm
  · exact digit_ne_slash _ h6 h.symm
  · exact absurd h (by decide)
  · exact digit_ne_slash _ h7 h.symm
  · exact digit_ne_slash _ h8 h.symm

/-- Evaluating `extract_date` on a well-shaped `YYYY-MM-DD` list returns
it unchanged. -/
theorem extract_date_fixed (y1 y2 y3 y4 m1 m2 d1 d2 : Char)
    (h1 : y1.isDigit = true) (h2 : y2.isDigit = true) (h3 : y3.isDigit = true)
    (h4 : y4.isDigit = true) (h5 : m1.isDigit = true) (h6 : m2.isDigit = true)
    (h7 : d1.isDigit = true) (h8 : d2.isDigit = true) :
    extract_date (String.mk [y1, y2, y3, y4, '-', m1, m2, '-', d1, d2]) =
      some (String.mk [y1, y2, y3, y4, '-', m1, m2, '-', d1, d2]) := by
  unfold extract_date
  have hd : (String.mk [y1, y2, y3, y4, '-', m1, m2, '-', d1, d2]).data =
      [y1, y2, y3, y4, '-', m1, m2, '-', d1, d2] := rfl
  rw [hd, findSlashDate_eq_none _
    (slash_not_mem_date y1 y2 y3 y4 m1 m2 d1 d2 h1 h2 h3 h4 h5 h6 h7 h8),
    findDashDate_self y1 y2 y3 y4 m1 m2 d1 d2 h1 h2 h3 h4 h5 h6 h7 h8]

/-! ## Claim theorems -/

/-- C9.  `extract_date("02/01/2026")` equals `"2026-01-02"`, and
`extract_date` is stable on its own output: whenever it returns a date
string `d`, running it again on `d` returns `d`. -/
theorem claim_C9_extract_date_roundtrip_stable :
    extract_date ("02/01/2026") = some ("2026-01-02") ∧
    ∀ (text d : String), extract_date text = some d → extract_date d = some d := by
  constructor
  · rfl
  · intro text d h
    unfold extract_date at h
    cases hs : findSlashDate text.data with
    | some r =>
      obtain ⟨dd, mm, yy⟩ := r
      rw [hs] at h
      simp only [Option.some.injEq] at h
      obtain ⟨d1, d2, m1, m2, y1, y2, y3, y4, hdd, hmm, hyy,
        p1, p2, p3, p4, p5, p6, p7, p8⟩ := findSlashDate_shape _ _ _ _ hs
      subst hdd; subst hmm; subst hyy
      subst h
      exact extract_date_fixed y1 y2 y3 y4 m1 m2 d1 d2 p5 p6 p7 p8 p3 p4 p1 p2
    | none =>
      rw [hs] at h
      cases hm : findDashDate text.data with
      | some m =>
        rw [hm] at h
        simp only [Option.some.injEq] at h
        obtain ⟨y1, y2, y3, y4, m1, m2, d1, d2, hmshape,
          p1, p2, p3, p4, p5, p6, p7, p8⟩ := findDashDate_shape _ _ hm
        subst hmshape
        subst h
        exact extract_date_fixed y1 y2 y3 y4 m1 m2 d1 d2 p1 p2 p3 p4 p5 p6 p7 p8
      | none =>
        rw [hm] at h
        exact absurd h (by simp)

/-- C9 witness: the stability half applied at the concrete round-trip
input. -/
theorem claim_C9_witness :
    extract_date ("2026-01-02") = some ("2026-01-02") :=
  claim_C9_extract_date_roundtrip_stable.2 ("02/01/2026") ("2026-01-02") (by rfl)


/-- A character of the class `[A-Z0-9]` is a word character. -/
theorem upperAlnum_word (c : Char) (h : isUpperAlnum c = true) :
    pyIsWordChar c = true := by
  simp only [isUpperAlnum, Bool.or_eq_true] at h
  simp only [pyIsWordChar, Char.isAlphanum, Char.isAlpha, Bool.or_eq_true]
  rcases h with h | h
  · exact Or.inl (Or.inl (Or.inl h))
  · exact Or.inl (Or.inr h)

/-- A character of the class `[A-Z0-9]` is fixed by `str.upper()`. -/
theorem upperAlnum_toUpper (c : Char) (h : isUpperAlnum c = true) :
    c.toUpper = c := by
  unfold Char.toUpper
  simp only [isUpperAlnum, Char.isUpper, Char.isDigit, Bool.or_eq_true,
    Bool.and_eq_true, decide_eq_true_eq] at h
  have hlt : c.toNat < 97 := by
    rcases h with ⟨_, h2⟩ | ⟨_, h2⟩ <;>
    · have h3 : c.val.toNat ≤ 90 ∨ c.val.toNat ≤ 57 := by
        first
        | exact Or.inl h2
        | exact Or.inr h2
      simp only [Char.toNat]
      omega
  rw [if_neg]
  omega

/-- Upper-casing fixes a list of `[A-Z0-9]` characters. -/
theorem map_toUpper_id (l : List Char) (h : ∀ c ∈ l, isUpperAlnum c = true) :
    l.map Char.toUpper = l := by
  induction l with
  | nil => rfl
  | cons c cs ih =>
    simp only [List.map_cons]
    rw [upperAlnum_toUpper c (h c (List.mem_cons_self c cs)),
      ih (fun x hx => h x (List.mem_cons_of_mem _ hx))]

/-- The reference scan finds nothing when the previous character and every
remaining character are word characters: every start position fails the
leading word-boundary test. -/
theorem findRun_none_allWord (good : Char → Bool) : ∀ (l : List Char) (p : Char),
    (∀ c ∈ l, pyIsWordChar c = true) → pyIsWordChar p = true →
    findRun good (some p) l = none := by
  intro l
  induction l with
  | nil => intro p _ _; rfl
  | cons c cs ih =>
    intro p hall hp
    unfold findRun
    have ht : tryRunAt good (some p) (c :: cs) = none := by
      simp [tryRunAt, boundaryOk, hp]
    rw [ht]
    exact ih c (fun x hx => hall x (List.mem_cons_of_mem _ hx))
      (hall c (List.mem_cons_self c cs))

/-- The reference scan finds nothing on an all-word-character list whose
maximal `good` run is a proper prefix: position 0 fails the trailing
boundary test, and every later position fails the leading one. -/
theorem findRun_none_start (good : Char → Bool) (l : List Char)
    (hw : ∀ c ∈ l, pyIsWordChar c = true) (hne : l.dropWhile good ≠ []) :
    findRun good none l = none := by
  cases l with
  | nil => exact absurd (by simp) hne
  | cons c cs =>
    unfold findRun
    have ht : tryRunAt good none (c :: cs) = none := by
      cases hd : (c :: cs).dropWhile good with
      | nil => exact absurd hd hne
      | cons h t =>
        have hmem : h ∈ c :: cs :=
          (List.dropWhile_sublist good).mem (hd ▸ List.mem_cons_self h t)
        have hwh : pyIsWordChar h = true := hw h hmem
        simp [tryRunAt, hd, afterOk, hwh]
    rw [ht]
    exact findRun_none_allWord good cs c
      (fun x hx => hw x (List.mem_cons_of_mem _ hx))
      (hw c (List.mem_cons_self c cs))

/-- The reference scan matches the whole list when it is one `good` run of
length 6–15. -/
theorem findRun_full (good : Char → Bool) (l : List Char)
    (hall : ∀ c ∈ l, good c = true) (h6 : 6 ≤ l.length) (h15 : l.length ≤ 15) :
    findRun good none l = some l := by
  cases l with
  | nil => simp at h6
  | cons c cs =>
    unfold findRun
    have htw : (c :: cs).takeWhile good = c :: cs :=
      List.takeWhile_eq_self_iff.mpr hall
    have hdw : (c :: cs).dropWhile good = [] :=
      List.dropWhile_eq_nil_iff.mpr hall
    have ht : tryRunAt good none (c :: cs) = some (c :: cs) := by
      simp only [List.length_cons] at h6 h15
      simp [tryRunAt, htw, hdw, boundaryOk, afterOk]
      omega
    rw [ht]


/-- C10.  `extract_reference` accepts any word of 6–15 characters drawn
from `[A-Z0-9]` — command keywords included — and consequently the cascade
resolves `"SUPPRIMER tout"` (deletion keyword, no intervention number) as
`DELETE` with the keyword itself as the reference. -/
theorem claim_C10_reference_accepts_keywords :
    (∀ l : List Char, 6 ≤ l.length → l.length ≤ 15 →
      (∀ c ∈ l, isUpperAlnum c = true) →
      extract_reference (String.mk l) = some (String.mk l)) ∧
    parse_message ("SUPPRIMER tout") false =
      PR .DELETE [("reference", JVal.s ("SUPPRIMER"))] := by
  constructor
  · intro l h6 h15 hall
    unfold extract_reference
    have hdl : (String.mk l).data = l := rfl
    rw [hdl]
    by_cases hd : ∀ c ∈ l, c.isDigit = true
    · rw [findRun_full Char.isDigit l hd h6 h15]
    · have hne : l.dropWhile Char.isDigit ≠ [] := by
        intro h0
        exact hd (List.dropWhile_eq_nil_iff.mp h0)
      rw [findRun_none_start Char.isDigit l
        (fun c hc => upperAlnum_word c (hall c hc)) hne]
      rw [map_toUpper_id l hall, findRun_full isUpperAlnum l hall h6 h15]
  · rfl

/-- C10 witness: the general half applied to the keyword `SUPPRIMER`
itself (9 characters of `[A-Z0-9]`). -/
theorem claim_C10_witness :
    extract_reference (String.mk ['S', 'U', 'P', 'P', 'R', 'I', 'M', 'E', 'R']) =
      some (String.mk ['S', 'U', 'P', 'P', 'R', 'I', 'M', 'E', 'R']) :=
  claim_C10_reference_accepts_keywords.1
    ['S', 'U', 'P', 'P', 'R', 'I', 'M', 'E', 'R']
    (by decide) (by decide) (by decide)


/-- C1.  On the spec's own example `"149041830 : client absent"` the
cascade classifies `ADD_COMMENT` and captures the comment under the key
`commentaire`, but the executor reads `data.get("comment", "")`, so the
text appended to the stored intervention's comments is the empty string —
not the captured text carried in the response. -/
theorem claim_C1_comment_text_dropped :
    process_message testEnv ("p1") ("149041830 : client absent") false none
        [refItem] =
      { action := "ADD_COMMENT",
        data := [("reference", JVal.s ("149041830")),
                 ("commentaire", JVal.s ("client absent"))],
        store := [{ refItem with
          comments := [⟨"", "2026-10-12T10:00:00"⟩],
          updated_at := "2026-10-12T10:00:00" }] } := by
  rfl

/-- C2.  On `"MODIFIER 149041830 TYPE SAV"` the cascade resolves `UPDATE`
with the new type under `fields.type`, but the executor reads
`data["new_type"]`/`data["new_date"]` and so passes an empty field set;
the `update_item` call then names both `#t`/`#d` aliases without using
either, DynamoDB raises its `ValidationException`, and the pipeline
returns a canonical DB `ERROR` with no write — the stored type stays
`RAC`, never changed to `SAV`.  Even the executor-shaped type-only field
set errors the same way (the `#d` alias is unused); only a `type`+`date`
pair is ever applied. -/
theorem claim_C2_update_fields_not_applied :
    parse_message ("MODIFIER 149041830 TYPE SAV") false =
      PR .UPDATE [("reference", JVal.s ("149041830")),
        ("fields", JVal.obj [("type", JVal.s ("SAV"))])] ∧
    process_message testEnv ("p1") ("MODIFIER 149041830 TYPE SAV") false none
        [refItem] =
      { action := "ERROR",
        data := [("message",
          JVal.s ("Erreur base de données: " ++ testEnv.dynamoErrMsg))],
        store := [refItem] } ∧
    update_intervention testEnv ("p1") ("149041830") [("type", "SAV")]
        [refItem] =
      ([("error", JVal.s ("Erreur base de données: " ++ testEnv.dynamoErrMsg))],
       [refItem]) ∧
    update_intervention testEnv ("p1") ("149041830")
        [("type", "SAV"), ("date", "2026-11-01")] [refItem] =
      ([("success", JVal.b true), ("reference", JVal.s ("149041830")),
        ("updated_fields", JVal.arr [JVal.s ("type"), JVal.s ("date")])],
       [{ refItem with type := "SAV", date := "2026-11-01", updated_at := "2026-10-12T10:00:00" }]) := by
  exact ⟨rfl, rfl, rfl, rfl⟩

/-- C3.  A cascade-resolved listing carries scope `"TODAY"`, which matches
none of the service's lower-case scope tags, so no date filter is applied:
the response returns every active record (here an old 2020 intervention is
included alongside today's, count 2).  The same store filtered with the
lower-case tag `"today"` returns only today's record. -/
theorem claim_C3_list_scope_case_mismatch :
    process_message testEnv ("p1") ("LISTE") false none
        [refItem, oldItem, delItem] =
      { action := "LIST",
        data := [("scope", JVal.s ("TODAY")), ("count", JVal.n 2),
                 ("interventions", JVal.arr
                   [JVal.obj (fmtListed refItem), JVal.obj (fmtListed oldItem)])],
        store := [refItem, oldItem, delItem] } ∧
    (list_interventions testEnv ("p1") ("today") none
        [refItem, oldItem, delItem]).1 =
      [("success", JVal.b true), ("scope", JVal.s ("today")),
       ("count", JVal.n 1),
       ("interventions", JVal.arr [JVal.obj (fmtListed refItem)])] := by
  exact ⟨rfl, rfl⟩

/-- C4.  A cascade-resolved `CREATE_ONE` without an explicit date carries
the sentinel string `TODAY`, which `create_intervention` treats as a
truthy literal date: the stored and returned date is the string `"TODAY"`,
not the current day.  The duplicate check itself works: a second identical
message against the active record is rejected. -/
theorem claim_C4_created_date_is_sentinel :
    process_message testEnv ("p1") ("RAC 149041830") false none [] =
      { action := "CREATE_ONE",
        data := [("type", JVal.s ("RAC")), ("reference", JVal.s ("149041830")),
                 ("date", JVal.s ("TODAY"))],
        store := [sentinelItem] } ∧
    sentinelItem.date ≠ testEnv.today ∧
    process_message testEnv ("p1") ("RAC 149041830") false none [refItem] =
      { action := "ERROR",
        data := [("message",
          JVal.s ("L" ++ apos ++ "intervention 149041830 existe déjà"))],
        store := [refItem] } := by
  refine ⟨rfl, ?_, rfl⟩
  decide

/-- C5 counterexample.  `DELETE` against an already-soft-deleted target:
the pipeline returns a success response (not `ERROR`) and the record is
written again (its `updated_at` changes), refuting the claim for the
DELETE action. -/
theorem claim_C5_counterexample :
    process_message testEnv ("p1") ("SUPPRIMER 149041830") false none
        [refItemDeleted] =
      { action := "DELETE", data := [("reference", JVal.s ("149041830"))],
        store := [{ refItemDeleted with updated_at := "2026-10-12T10:00:00" }] } := by
  rfl

/-- C5 amended.  Per-operation target checks of the storage layer:
`add_comment` and `update_intervention` verify existence and
non-deletion, returning the error dictionary with the store unchanged
otherwise; `delete_intervention` and `get_image_references` verify
existence only (an already-soft-deleted target is deleted again /
returned); `add_image_reference` performs no check at all and succeeds on
any store. -/
theorem claim_C5_amended_target_checks (env : Env)
    (phone reference comment : String) (fields : List (String × String))
    (store : Store) (hdb : env.dbConfigured = true) :
    (findItem store phone reference = none →
      add_comment env phone reference comment store = (notFoundErr reference, store) ∧
      update_intervention env phone reference fields store = (notFoundErr reference, store) ∧
      delete_intervention env phone reference store = (notFoundErr reference, store) ∧
      get_image_references env phone reference store = (notFoundErr reference, store)) ∧
    (∀ it : Item, findItem store phone reference = some it →
      it.status = "deleted" →
      add_comment env phone reference comment store = (deletedErr reference, store) ∧
      update_intervention env phone reference fields store = (deletedErr reference, store) ∧
      (delete_intervention env phone reference store).1 =
        [("success", JVal.b true), ("reference", JVal.s reference),
         ("deleted", JVal.b true)] ∧
      (get_image_references env phone reference store).1 =
        [("success", JVal.b true), ("reference", JVal.s reference),
         ("images", JVal.arr (it.images.map (fun im =>
           JVal.obj [("s3_key", JVal.s im.s3_key),
                     ("uploaded_at", JVal.s im.uploaded_at)])))]) ∧
    (add_image_reference env phone reference env.s3Key store).1 =
      [("success", JVal.b true), ("s3_key", JVal.s env.s3Key)] := by
  refine ⟨?_, ?_, ?_⟩
  · intro hnone
    refine ⟨?_, ?_, ?_, ?_⟩ <;>
      simp [add_comment, update_intervention, delete_intervention,
        get_image_references, hdb, hnone]
  · intro it hsome hdel
    refine ⟨?_, ?_, ?_, ?_⟩ <;>
      simp [add_comment, update_intervention, delete_intervention,
        get_image_references, hdb, hsome, hdel]
  · simp [add_image_reference, hdb]

/-- C5 witness: the amended per-operation checks evaluated on the empty
store (missing target) and on a store holding a soft-deleted target. -/
theorem claim_C5_amended_witness :
    (add_comment testEnv ("p1") ("999999999") ("note") [] =
      (notFoundErr ("999999999"), [])) ∧
    (delete_intervention testEnv ("p1") ("149041830") [refItemDeleted]).1 =
      [("success", JVal.b true), ("reference", JVal.s ("149041830")),
       ("deleted", JVal.b true)] ∧
    (add_image_reference testEnv ("p1") ("999999999") testEnv.s3Key []).1 =
      [("success", JVal.b true), ("s3_key", JVal.s testEnv.s3Key)] := by
  have h1 := claim_C5_amended_target_checks testEnv ("p1") ("999999999")
    ("note") [] [] (by rfl)
  have h2 := claim_C5_amended_target_checks testEnv ("p1") ("149041830")
    ("note") [] [refItemDeleted] (by rfl)
  exact ⟨(h1.1 (by rfl)).1,
    (h2.2.1 refItemDeleted (by rfl) (by rfl)).2.2.1,
    h1.2.2⟩

/-- C8.  The rule classifier is deterministic: the embedding of
`parse_message` is a pure function of exactly `(text, has_media)` — the
source module reads no clock and no randomness (it imports only `re`), so
two evaluations on the same pair coincide. -/
theorem claim_C8_cascade_deterministic :
    ∀ (text : String) (has_media : Bool),
      parse_message text has_media = parse_message text has_media := by
  intro text has_media
  rfl

/-- C7.  On a cascade fall-through: with the OpenAI key unset the pipeline
returns the `assistant unavailable` canonical `ERROR` without touching the
store, for every oracle outcome (the call is never consulted); with the
key set and the collaborator returning an action string that is none of
the 11 tags, the pipeline returns the `Action non reconnue` canonical
`ERROR`, again leaving the store unchanged. -/
theorem claim_C7_fallback_guards (env : Env) (phone message : String)
    (has_media : Bool) (media_url : Option String) (store : Store)
    (hamb : (parse_message message has_media).ambiguous = true) :
    (process_message { env with openaiKey := false } phone message has_media
        media_url store =
      { action := "ERROR",
        data := [("message",
          JVal.s ("Service IA non disponible. Reformulez votre message."))],
        store := store }) ∧
    (∀ (reply : JDict) (actStr : String),
      jget reply "action" = some (JVal.s actStr) →
      Action.ofString actStr = none →
      process_message { env with openaiKey := true, aiOutcome := .ok reply }
          phone message has_media media_url store =
        { action := "ERROR",
          data := [("message", JVal.s ("Action non reconnue"))],
          store := store }) := by
  constructor
  · simp [process_message, hamb, call_openai_fallback, execute_action,
      jget, jvalAsStr, Action.ofString, Action.val]
  · intro reply actStr hact hbad
    simp [process_message, hamb, call_openai_fallback, hact, hbad, jvalAsStr,
      Action.val]

/-- C7 witness: both guards evaluated on the concrete ambiguous message
`"bonjour"`. -/
theorem claim_C7_witness :
    (process_message { testEnv with openaiKey := false } ("p1") ("bonjour")
        false none [] =
      { action := "ERROR",
        data := [("message",
          JVal.s ("Service IA non disponible. Reformulez votre message."))],
        store := [] }) ∧
    (process_message
        { testEnv with openaiKey := true, aiOutcome := .ok [("action", JVal.s ("FOO"))] }
        ("p1") ("bonjour") false none [] =
      { action := "ERROR",
        data := [("message", JVal.s ("Action non reconnue"))],
        store := [] }) := by
  have h := claim_C7_fallback_guards testEnv ("p1") ("bonjour") false none []
    (by rfl)
  exact ⟨h.1, h.2 [("action", JVal.s ("FOO"))] ("FOO") (by rfl) (by rfl)⟩


/-- Unrolling the bulk-creation loop: threading any accumulators and start
index, the loop appends exactly the per-item created entries, the per-item
error entries, and folds the per-item store effects — each item's outcome
depending only on that item and its own injected fault. -/
theorem bulkLoop_eq (env : Env) (phone d : String) :
    ∀ (items : List JDict) (i : Nat) (cr er : List JDict) (st : Store),
    bulkLoop env phone d items i (cr, er, st) =
      (cr ++ (List.enumFrom i items).filterMap (bulkCreatedEntry env),
       er ++ (List.enumFrom i items).filterMap (bulkErrorEntry env),
       (List.enumFrom i items).foldl (bulkStoreStep env phone d) st) := by
  intro items
  induction items with
  | nil => intro i cr er st; simp [bulkLoop, List.enumFrom]
  | cons it rest ih =>
    intro i cr er st
    rw [bulkLoop, ih]
    cases hr : getStrOpt it "reference" with
    | none =>
      simp [bulkStep, bulkCreatedEntry, bulkErrorEntry, bulkStoreStep,
        bulkRef, hr, List.enumFrom, List.filterMap_cons]
    | some r =>
      by_cases hre : r.isEmpty
      · simp [bulkStep, bulkCreatedEntry, bulkErrorEntry, bulkStoreStep,
          bulkRef, hr, hre, List.enumFrom, List.filterMap_cons]
      · cases hf : env.bulkFaults i with
        | none =>
          simp [bulkStep, bulkCreatedEntry, bulkErrorEntry, bulkStoreStep,
            bulkRef, hr, hre, hf, List.enumFrom, List.filterMap_cons]
        | some e =>
          simp [bulkStep, bulkCreatedEntry, bulkErrorEntry, bulkStoreStep,
            bulkRef, hr, hre, hf, List.enumFrom, List.filterMap_cons]

/-- C6 counterexample.  A two-item bulk whose second `put_item` raises a
`ClientError`: the first item is created (count 1), the service result
records the per-item error, but the canonical response carries only
`count` and `interventions` — it has no `errors` entry at all, refuting
the claim that the response reports the per-item error list. -/
theorem claim_C6_counterexample :
    execute_action faultEnv ("p1") .CREATE_BULK bulkMsgData none [] =
      { action := "CREATE_BULK",
        data := [("count", JVal.n 1),
                 ("interventions", JVal.arr
                   [JVal.obj [("type", JVal.s ("RAC")),
                              ("reference", JVal.s ("111111"))]])],
        store := [bulkItem1] } ∧
    jget (execute_action faultEnv ("p1") .CREATE_BULK bulkMsgData none []).data
        ("errors") = none ∧
    (create_bulk_interventions faultEnv ("p1")
      [[("type", JVal.s ("RAC")), ("reference", JVal.s ("111111"))],
       [("type", JVal.s ("SAV")), ("reference", JVal.s ("222222"))]]
      (some ("2026-01-02")) []).1 =
      [("success", JVal.b true),
       ("created", JVal.arr [JVal.obj [("type", JVal.s ("RAC")),
         ("reference", JVal.s ("111111"))]]),
       ("count", JVal.n 1),
       ("errors", JVal.arr [JVal.obj [("reference", JVal.s ("222222")),
         ("error", JVal.s ("ClientError"))]])] := by
  exact ⟨rfl, rfl, rfl⟩

/-- C6 amended.  The items are written independently — the service result
is exactly the per-item characterization (created entries, count, per-item
error entries, per-item store effects, each depending only on the item's
own fault) — but only the service result reports the error list: the
canonical `CREATE_BULK` response never carries an `errors` entry. -/
theorem claim_C6_amended_bulk_independent (env : Env) (phone : String)
    (items : List JDict) (date : Option String) (store : Store)
    (hdb : env.dbConfigured = true) :
    (create_bulk_interventions env phone items date store =
      ([("success", JVal.b (decide (0 <
          ((List.enumFrom 0 items).filterMap (bulkCreatedEntry env)).length))),
        ("created", JVal.arr
          (((List.enumFrom 0 items).filterMap (bulkCreatedEntry env)).map JVal.obj)),
        ("count", JVal.n
          ((List.enumFrom 0 items).filterMap (bulkCreatedEntry env)).length),
        ("errors",
          if ((List.enumFrom 0 items).filterMap (bulkErrorEntry env)).isEmpty
          then JVal.null
          else JVal.arr
            (((List.enumFrom 0 items).filterMap (bulkErrorEntry env)).map JVal.obj))],
       (List.enumFrom 0 items).foldl
         (bulkStoreStep env phone (pyOrStr date env.today)) store)) ∧
    (∀ (data : JDict) (media : Option String) (st : Store),
      jget (execute_action env phone .CREATE_BULK data media st).data
        ("errors") = none) := by
  constructor
  · have hloop := bulkLoop_eq env phone (pyOrStr date env.today) items 0 [] [] store
    simp [create_bulk_interventions, hdb, hloop]
    rw [hloop]
    simp
  · intro data media st
    simp only [execute_action]
    split
    · rfl
    · rfl

/-- C6 witness: the amended characterization evaluated on the concrete
two-item faulting bulk. -/
theorem claim_C6_amended_witness :
    (create_bulk_interventions faultEnv ("p1")
      [[("type", JVal.s ("RAC")), ("reference", JVal.s ("111111"))],
       [("type", JVal.s ("SAV")), ("reference", JVal.s ("222222"))]]
      (some ("2026-01-02")) []).2 = [bulkItem1] ∧
    jget (execute_action faultEnv ("p1") .CREATE_BULK bulkMsgData none []).data
      ("errors") = none := by
  have h := claim_C6_amended_bulk_independent faultEnv ("p1")
    [[("type", JVal.s ("RAC")), ("reference", JVal.s ("111111"))],
     [("type", JVal.s ("SAV")), ("reference", JVal.s ("222222"))]]
    (some ("2026-01-02")) [] (by rfl)
  constructor
  · rw [h.1]
    rfl
  · exact h.2 bulkMsgData none []

end Lynkia
